import Mathlib

/-!
Shallow embedding of the DS3231 real-time-clock driver (`ds3231.c`, `at24c32.c`).

Machine bytes are modelled as `Nat` with explicit `% 256` where the C code can
overflow a `uint8_t`.  The device register file is a function from register
address to byte value.  Bus transactions are modelled by an oracle
`ok : Nat → Bool` giving the success of the n-th transaction issued by a call,
and every attempted transaction is recorded in an event trace.
-/

namespace DS3231

/-- Device register file: register address to byte value. -/
abbrev Regs := Nat → Nat

/-- A bus transaction attempted by a driver call (register read or write). -/
inductive BusEvent where
  | read (reg len : Nat)
  | write (reg : Nat) (data : List Nat)
deriving DecidableEq

/-- Successive bytes written to the register file starting at `reg`
(the effect of a successful `i2c_write_reg`). -/
def writeBytes : Regs → Nat → List Nat → Regs
  | dev, _, [] => dev
  | dev, reg, b :: rest => writeBytes (fun a => if a = reg then b else dev a) (reg + 1) rest

/-- Successive bytes read from the register file starting at `reg`
(the data returned by a successful `i2c_read_reg`). -/
def readBytes (dev : Regs) : Nat → Nat → List Nat
  | _, 0 => []
  | reg, n + 1 => dev reg :: readBytes dev (reg + 1) n

/- Register addresses from `ds3231.h`. -/

abbrev DS3231_SECONDS_REG : Nat := 0x00
abbrev DS3231_HOURS_REG : Nat := 0x02
abbrev DS3231_SECONDS_ALARM_1_REG : Nat := 0x07
abbrev DS3231_MINUTES_ALARM_2_REG : Nat := 0x0B
abbrev DS3231_CONTROL_REG : Nat := 0x0E
abbrev DS3231_TEMPERATURE_MSB_REG : Nat := 0x11

/-- `bin_to_bcd` from `ds3231.c`: pack a binary value into two decimal
nibbles.  The C function returns `uint8_t`, hence the final `% 256`. -/
def bin_to_bcd (data : Nat) : Nat :=
  let ones_digit := data % 10
  let twos_digit := (data - ones_digit) / 10
  ((twos_digit <<< 4) + ones_digit) % 256

/-- `bin_to_bcd_am_pm` from `ds3231.c`.  Note the source computes
`temp = bin_to_bcd(data)` first; the later `data -= 12` inside the
`if (data > 12)` branch is a dead store (`data` is never read again),
so only the OR of the meridiem bit survives. -/
def bin_to_bcd_am_pm (data : Nat) : Nat :=
  let temp := bin_to_bcd data
  let am_pm := if data > 12 then 1 else 0
  temp ||| (am_pm <<< 5)

/-- `ds3231_data_t` from `ds3231.h` (all `uint8_t` fields plus a `bool`). -/
structure Ds3231Data where
  seconds : Nat
  minutes : Nat
  hours : Nat
  am_pm : Bool
  day : Nat
  date : Nat
  month : Nat
  century : Nat
  year : Nat
deriving DecidableEq

/-- `ds3231_alarm_1_t` from `ds3231.h`. -/
structure Alarm1 where
  seconds : Nat
  minutes : Nat
  hours : Nat
  am_pm : Bool
  day : Nat
  date : Nat
deriving DecidableEq

/-- `ds3231_alarm_2_t` from `ds3231.h`. -/
structure Alarm2 where
  minutes : Nat
  hours : Nat
  am_pm : Bool
  day : Nat
  date : Nat
deriving DecidableEq

/-- The range-clamping block of `ds3231_configure_time`
(`ds3231.c` lines 181-214), mutating the caller's struct in place. -/
def clampTime (am_pm_mode : Bool) (d : Ds3231Data) : Ds3231Data :=
  { d with
    seconds := if d.seconds > 59 then 59 else d.seconds
    minutes := if d.minutes > 59 then 59 else d.minutes
    hours :=
      if am_pm_mode then
        if d.hours > 12 then 12 else if d.hours < 1 then 1 else d.hours
      else
        if d.hours > 23 then 23 else d.hours
    day := if d.day > 7 then 7 else if d.day < 1 then 1 else d.day
    date := if d.date > 31 then 31 else if d.date < 1 then 1 else d.date
    month := if d.month > 12 then 12 else if d.month < 1 then 1 else d.month
    year := if d.year > 99 then 99 else d.year }

/-- The clamping block shared by `ds3231_set_alarm_1`
(`ds3231.c` lines 300-325). -/
def clampAlarm1 (am_pm_mode : Bool) (a : Alarm1) : Alarm1 :=
  { a with
    seconds := if a.seconds > 59 then 59 else a.seconds
    minutes := if a.minutes > 59 then 59 else a.minutes
    hours :=
      if am_pm_mode then
        if a.hours > 12 then 12 else if a.hours < 1 then 1 else a.hours
      else
        if a.hours > 23 then 23 else a.hours
    day := if a.day > 7 then 7 else if a.day < 1 then 1 else a.day
    date := if a.date > 31 then 31 else if a.date < 1 then 1 else a.date }

/-- The clamping block of `ds3231_set_alarm_2` (`ds3231.c` lines 434-455);
alarm 2 has no seconds field. -/
def clampAlarm2 (am_pm_mode : Bool) (a : Alarm2) : Alarm2 :=
  { a with
    minutes := if a.minutes > 59 then 59 else a.minutes
    hours :=
      if am_pm_mode then
        if a.hours > 12 then 12 else if a.hours < 1 then 1 else a.hours
      else
        if a.hours > 23 then 23 else a.hours
    day := if a.day > 7 then 7 else if a.day < 1 then 1 else a.day
    date := if a.date > 31 then 31 else if a.date < 1 then 1 else a.date }

/-- The hour-register byte written by the driver:
12-hour mode uses `bin_to_bcd_am_pm` and forces bit 6
(`temp |= (0x01 << 6)`); 24-hour mode uses `bin_to_bcd` and clears bit 6
(`temp &= ~(0x01 << 6)`, which on a byte is `&&& 0xBF`).
This pattern appears in `ds3231_configure_time` and in both alarm setters. -/
def hours_reg_byte (am_pm_mode : Bool) (hours : Nat) : Nat :=
  if am_pm_mode then bin_to_bcd_am_pm hours ||| (0x01 <<< 6)
  else bin_to_bcd hours &&& 0xBF

/-- The 7-byte register image built by `ds3231_configure_time`
(`ds3231.c` lines 217-238) from the already-clamped record.  Every byte of
`temp` is overwritten, so the image does not depend on the bytes read from
the device.  `temp[5] |= (0x01 << 7)` adds the century flag; the C test is
`if (data->century)`, i.e. any non-zero value. -/
def configure_time_image (am_pm_mode : Bool) (d : Ds3231Data) : List Nat :=
  [ bin_to_bcd d.seconds,
    bin_to_bcd d.minutes,
    hours_reg_byte am_pm_mode d.hours,
    bin_to_bcd d.day,
    bin_to_bcd d.date,
    if d.century ≠ 0 then bin_to_bcd d.month ||| (0x01 <<< 7) else bin_to_bcd d.month,
    bin_to_bcd d.year ]

/-- The field extraction of `ds3231_read_current_time`
(`ds3231.c` lines 257-276) applied to the 7 raw bytes, updating the
caller's record `d` in place.  In 24-hour mode the `am_pm` field of the
caller's struct is not written. -/
def read_time_fields (am_pm_mode : Bool) (raw : List Nat) (d : Ds3231Data) : Ds3231Data :=
  let r0 := raw.getD 0 0
  let r1 := raw.getD 1 0
  let r2 := raw.getD 2 0
  let r3 := raw.getD 3 0
  let r4 := raw.getD 4 0
  let r5 := raw.getD 5 0
  let r6 := raw.getD 6 0
  { seconds := 10 * ((r0 &&& 0x70) >>> 4) + (r0 &&& 0x0F)
    minutes := 10 * ((r1 &&& 0x70) >>> 4) + (r1 &&& 0x0F)
    hours :=
      if am_pm_mode then 10 * ((r2 &&& 0x10) >>> 4) + (r2 &&& 0x0F)
      else 10 * ((r2 &&& 0x30) >>> 4) + (r2 &&& 0x0F)
    am_pm := if am_pm_mode then ((r2 &&& 0x20) >>> 5) != 0 else d.am_pm
    day := r3 &&& 0x07
    date := 10 * ((r4 &&& 0x30) >>> 4) + (r4 &&& 0x0F)
    month := 10 * ((r5 &&& 0x10) >>> 4) + (r5 &&& 0x0F)
    century := (r5 &&& (0x01 <<< 7)) >>> 7
    year := 10 * ((r6 &&& 0xF0) >>> 4) + (r6 &&& 0x0F) }

/-- Outcome of a driver call: C return code, the caller-supplied struct
after any in-place mutation, the device register file after the call, and
the trace of attempted bus transactions. -/
structure OpResult (α : Type) where
  ret : Int
  st : α
  dev : Regs
  trace : List BusEvent

/-- `ds3231_configure_time` (`ds3231.c` lines 176-243): read the 7
timekeeping registers (their values are unused — every byte of the image is
overwritten), clamp the caller's record in place, build the image, write it
back.  `ok n` is the success of the n-th bus transaction of this call. -/
def ds3231_configure_time (am_pm_mode : Bool) (data : Ds3231Data)
    (dev : Regs) (ok : Nat → Bool) : OpResult Ds3231Data :=
  if ok 0 = true then
    let d := clampTime am_pm_mode data
    let temp := configure_time_image am_pm_mode d
    if ok 1 = true then
      ⟨0, d, writeBytes dev DS3231_SECONDS_REG temp,
        [.read DS3231_SECONDS_REG 7, .write DS3231_SECONDS_REG temp]⟩
    else
      ⟨-1, d, dev, [.read DS3231_SECONDS_REG 7, .write DS3231_SECONDS_REG temp]⟩
  else ⟨-1, data, dev, [.read DS3231_SECONDS_REG 7]⟩

/-- `ds3231_read_current_time` (`ds3231.c` lines 252-279): read the 7
timekeeping registers and decode them into the caller's record. -/
def ds3231_read_current_time (am_pm_mode : Bool) (data : Ds3231Data)
    (dev : Regs) (ok : Nat → Bool) : OpResult Ds3231Data :=
  if ok 0 = true then
    ⟨0, read_time_fields am_pm_mode (readBytes dev DS3231_SECONDS_REG 7) data,
      dev, [.read DS3231_SECONDS_REG 7]⟩
  else ⟨-1, data, dev, [.read DS3231_SECONDS_REG 7]⟩

/-- The `switch (mask)` of `ds3231_set_alarm_1` (`ds3231.c` lines 328-402),
building the 4-byte alarm-1 image from the bytes `t` read from the device
and the already-clamped alarm record.  `none` is the `default:` branch.
Mask values are the `ALARM_1_MASKS` enum constants from `ds3231.h`.
In the two strictest cases the source ends with `temp[3] |= (0x01 << 7)`,
setting the don't-care bit of the day/date register. -/
def alarm1_image (am_pm_mode : Bool) (a : Alarm1) (mask : Nat) (t : List Nat) :
    Option (List Nat) :=
  let t0 := t.getD 0 0
  let t1 := t.getD 1 0
  let t2 := t.getD 2 0
  let t3 := t.getD 3 0
  if mask = 0x0F then -- ON_EVERY_SECOND
    some [t0 ||| 0x80, t1 ||| 0x80, t2 ||| 0x80, t3 ||| 0x80]
  else if mask = 0x0E then -- ON_MATCHING_SECOND
    some [bin_to_bcd a.seconds &&& 0x7F, t1 ||| 0x80, t2 ||| 0x80, t3 ||| 0x80]
  else if mask = 0x0C then -- ON_MATCHING_SECOND_AND_MINUTE
    some [bin_to_bcd a.seconds &&& 0x7F, bin_to_bcd a.minutes &&& 0x7F,
      t2 ||| 0x80, t3 ||| 0x80]
  else if mask = 0x08 then -- ON_MATCHING_SECOND_MINUTE_AND_HOUR
    some [bin_to_bcd a.seconds &&& 0x7F, bin_to_bcd a.minutes &&& 0x7F,
      hours_reg_byte am_pm_mode a.hours &&& 0x7F, t3 ||| 0x80]
  else if mask = 0x00 then -- ON_MATCHING_SECOND_MINUTE_HOUR_AND_DATE
    some [bin_to_bcd a.seconds &&& 0x7F, bin_to_bcd a.minutes &&& 0x7F,
      hours_reg_byte am_pm_mode a.hours &&& 0x7F,
      (bin_to_bcd a.date &&& 0xBF) ||| 0x80]
  else if mask = 0x10 then -- ON_MATCHING_SECOND_MINUTE_HOUR_AND_DAY
    some [bin_to_bcd a.seconds &&& 0x7F, bin_to_bcd a.minutes &&& 0x7F,
      hours_reg_byte am_pm_mode a.hours &&& 0x7F,
      (bin_to_bcd a.day ||| 0x40) ||| 0x80]
  else none

/-- The `switch (mask)` of `ds3231_set_alarm_2` (`ds3231.c` lines 457-517),
building the 3-byte alarm-2 image.  Mask values are `ALARM_2_MASKS`.
Note the source's DAY case also encodes `alarm_time->date`
(`temp[2] = bin_to_bcd(alarm_time->date)` at line 508). -/
def alarm2_image (am_pm_mode : Bool) (a : Alarm2) (mask : Nat) (t : List Nat) :
    Option (List Nat) :=
  let t0 := t.getD 0 0
  let t1 := t.getD 1 0
  let t2 := t.getD 2 0
  if mask = 0x07 then -- ON_EVERY_MINUTE
    some [t0 ||| 0x80, t1 ||| 0x80, t2 ||| 0x80]
  else if mask = 0x06 then -- ON_MATCHING_MINUTE
    some [bin_to_bcd a.minutes &&& 0x7F, t1 ||| 0x80, t2 ||| 0x80]
  else if mask = 0x05 then -- ON_MATCHING_MINUTE_AND_HOUR
    some [bin_to_bcd a.minutes &&& 0x7F,
      hours_reg_byte am_pm_mode a.hours &&& 0x7F, t2 ||| 0x80]
  else if mask = 0x00 then -- ON_MATCHING_MINUTE_HOUR_AND_DATE
    some [bin_to_bcd a.minutes &&& 0x7F,
      hours_reg_byte am_pm_mode a.hours &&& 0x7F,
      (bin_to_bcd a.date &&& 0xBF) &&& 0x7F]
  else if mask = 0x01 then -- ON_MATCHING_MINUTE_HOUR_AND_DAY
    some [bin_to_bcd a.minutes &&& 0x7F,
      hours_reg_byte am_pm_mode a.hours &&& 0x7F,
      (bin_to_bcd a.date ||| 0x40) &&& 0x7F]
  else none

/-- `ds3231_set_alarm_1` (`ds3231.c` lines 295-414): read the four alarm-1
registers, clamp the caller's alarm record in place, build the image per
mask (invalid mask returns `-1` with no further transaction), then
read-modify-write the control register (`|= 0x01`, the A1IE bit), then
write the alarm registers. -/
def ds3231_set_alarm_1 (am_pm_mode : Bool) (alarm_time : Alarm1) (mask : Nat)
    (dev : Regs) (ok : Nat → Bool) : OpResult Alarm1 :=
  if ok 0 = true then
    let a := clampAlarm1 am_pm_mode alarm_time
    match alarm1_image am_pm_mode a mask (readBytes dev DS3231_SECONDS_ALARM_1_REG 4) with
    | none => ⟨-1, a, dev, [.read DS3231_SECONDS_ALARM_1_REG 4]⟩
    | some temp =>
      if ok 1 = true then
        let ctrl := dev DS3231_CONTROL_REG ||| 0x01
        if ok 2 = true then
          let dev1 := writeBytes dev DS3231_CONTROL_REG [ctrl]
          if ok 3 = true then
            ⟨0, a, writeBytes dev1 DS3231_SECONDS_ALARM_1_REG temp,
              [.read DS3231_SECONDS_ALARM_1_REG 4, .read DS3231_CONTROL_REG 1,
                .write DS3231_CONTROL_REG [ctrl], .write DS3231_SECONDS_ALARM_1_REG temp]⟩
          else
            ⟨-1, a, dev1,
              [.read DS3231_SECONDS_ALARM_1_REG 4, .read DS3231_CONTROL_REG 1,
                .write DS3231_CONTROL_REG [ctrl], .write DS3231_SECONDS_ALARM_1_REG temp]⟩
        else
          ⟨-1, a, dev,
            [.read DS3231_SECONDS_ALARM_1_REG 4, .read DS3231_CONTROL_REG 1,
              .write DS3231_CONTROL_REG [ctrl]]⟩
      else
        ⟨-1, a, dev, [.read DS3231_SECONDS_ALARM_1_REG 4, .read DS3231_CONTROL_REG 1]⟩
  else ⟨-1, alarm_time, dev, [.read DS3231_SECONDS_ALARM_1_REG 4]⟩

/-- `ds3231_set_alarm_2` (`ds3231.c` lines 429-529): as alarm 1 but with
three registers starting at 0x0B and control-register bit 1 (`|= 0x02`,
the A2IE bit). -/
def ds3231_set_alarm_2 (am_pm_mode : Bool) (alarm_time : Alarm2) (mask : Nat)
    (dev : Regs) (ok : Nat → Bool) : OpResult Alarm2 :=
  if ok 0 = true then
    let a := clampAlarm2 am_pm_mode alarm_time
    match alarm2_image am_pm_mode a mask (readBytes dev DS3231_MINUTES_ALARM_2_REG 3) with
    | none => ⟨-1, a, dev, [.read DS3231_MINUTES_ALARM_2_REG 3]⟩
    | some temp =>
      if ok 1 = true then
        let ctrl := dev DS3231_CONTROL_REG ||| 0x02
        if ok 2 = true then
          let dev1 := writeBytes dev DS3231_CONTROL_REG [ctrl]
          if ok 3 = true then
            ⟨0, a, writeBytes dev1 DS3231_MINUTES_ALARM_2_REG temp,
              [.read DS3231_MINUTES_ALARM_2_REG 3, .read DS3231_CONTROL_REG 1,
                .write DS3231_CONTROL_REG [ctrl], .write DS3231_MINUTES_ALARM_2_REG temp]⟩
          else
            ⟨-1, a, dev1,
              [.read DS3231_MINUTES_ALARM_2_REG 3, .read DS3231_CONTROL_REG 1,
                .write DS3231_CONTROL_REG [ctrl], .write DS3231_MINUTES_ALARM_2_REG temp]⟩
        else
          ⟨-1, a, dev,
            [.read DS3231_MINUTES_ALARM_2_REG 3, .read DS3231_CONTROL_REG 1,
              .write DS3231_CONTROL_REG [ctrl]]⟩
      else
        ⟨-1, a, dev, [.read DS3231_MINUTES_ALARM_2_REG 3, .read DS3231_CONTROL_REG 1]⟩
  else ⟨-1, alarm_time, dev, [.read DS3231_MINUTES_ALARM_2_REG 3]⟩

/-- `ds3231_set_square_wave_frequency` (`ds3231.c` lines 631-663): read the
control register, clear bits 3-4 (`&= ~0x18`, on a byte `&&& 0xE7`), OR in
the frequency code shifted left by 3; the `default:` branch of the switch
returns `-1` before any write.  Valid codes are the `SQUARE_WAVE_FREQUENCY`
enum values 0..3. -/
def ds3231_set_square_wave_frequency (sqr_frq : Nat) (dev : Regs)
    (ok : Nat → Bool) : OpResult Unit :=
  if ok 0 = true then
    if sqr_frq = 0 ∨ sqr_frq = 1 ∨ sqr_frq = 2 ∨ sqr_frq = 3 then
      let enable_byte := (dev DS3231_CONTROL_REG &&& 0xE7) ||| (sqr_frq <<< 3)
      if ok 1 = true then
        ⟨0, (), writeBytes dev DS3231_CONTROL_REG [enable_byte],
          [.read DS3231_CONTROL_REG 1, .write DS3231_CONTROL_REG [enable_byte]]⟩
      else
        ⟨-1, (), dev,
          [.read DS3231_CONTROL_REG 1, .write DS3231_CONTROL_REG [enable_byte]]⟩
    else ⟨-1, (), dev, [.read DS3231_CONTROL_REG 1]⟩
  else ⟨-1, (), dev, [.read DS3231_CONTROL_REG 1]⟩

/-- `ds3231_read_temperature` (`ds3231.c` lines 696-703): read the two
temperature registers and store `temp[0] + (float)(1 / (temp[1] >> 6))`.
The division `1 / (temp[1] >> 6)` is C integer division (the cast to float
happens after); it is modelled by `Nat` division.  When `temp[1] >> 6 = 0`
the C expression divides by zero (undefined behaviour); Lean's convention
`1 / 0 = 0` stands in for it.  `prev` is the value behind the out-pointer,
untouched on a bus failure. -/
def ds3231_read_temperature (dev : Regs) (prev : ℚ) (ok : Nat → Bool) :
    Int × ℚ :=
  if ok 0 = true then
    (0, (dev DS3231_TEMPERATURE_MSB_REG : ℚ)
      + (((1 / (dev (DS3231_TEMPERATURE_MSB_REG + 1) >>> 6) : ℕ)) : ℚ))
  else (-1, prev)

/-- A page write attempted against the AT24C32 EEPROM. -/
structure EepromWrite where
  page : Nat
  start : Nat
  data : List Nat
deriving DecidableEq

/-- `at24c32_write_current_time` (`at24c32.c` lines 101-129): read the
current time into a fresh (uninitialized, modelled by `init`) record, pack
it into an 8-byte layout whose field order depends on the device mode, and
write it to the given EEPROM page starting at byte 0.  The second
component lists the attempted EEPROM page writes. -/
def at24c32_write_current_time (am_pm_mode : Bool) (init : Ds3231Data)
    (dev : Regs) (page_addr : Nat) (ok : Nat → Bool) : Int × List EepromWrite :=
  let rd := ds3231_read_current_time am_pm_mode init dev ok
  if rd.ret ≠ 0 then (-1, [])
  else
    let ct := rd.st
    let data : List Nat :=
      if am_pm_mode then
        [ct.seconds, ct.minutes, ct.hours, if ct.am_pm then 1 else 0,
          ct.day, ct.date, ct.month, ct.year]
      else
        [ct.seconds, ct.minutes, ct.hours, ct.day,
          ct.date, ct.month, ct.year, ct.century]
    if ok 1 = true then (0, [⟨page_addr, 0, data⟩])
    else (-1, [⟨page_addr, 0, data⟩])

/-- Bus oracle on which every transaction succeeds. -/
def allOk : Nat → Bool := fun _ => true

/-- A register file with every register zero. -/
def dev0 : Regs := fun _ => 0


/-! ## Helper lemmas -/

theorem writeBytes_lt (bs : List Nat) (dev : Regs) (reg a : Nat) (h : a < reg) :
    writeBytes dev reg bs a = dev a := by
  induction bs generalizing dev reg with
  | nil => rfl
  | cons b rest ih =>
    rw [writeBytes, ih _ _ (Nat.lt_succ_of_lt h)]
    simp [Nat.ne_of_lt h]

theorem writeBytes_ge (bs : List Nat) (dev : Regs) (reg a : Nat)
    (h : reg + bs.length ≤ a) : writeBytes dev reg bs a = dev a := by
  induction bs generalizing dev reg with
  | nil => rfl
  | cons b rest ih =>
    rw [writeBytes, ih]
    · have : a ≠ reg := by simp at h; omega
      simp [this]
    · simp at h ⊢; omega

theorem readBytes_writeBytes (bs : List Nat) (dev : Regs) (reg : Nat) :
    readBytes (writeBytes dev reg bs) reg bs.length = bs := by
  induction bs generalizing dev reg with
  | nil => rfl
  | cons b rest ih =>
    rw [List.length_cons, readBytes, writeBytes]
    have hhead : writeBytes (fun a => if a = reg then b else dev a) (reg + 1) rest reg = b := by
      rw [writeBytes_lt _ _ _ _ (Nat.lt_succ_self reg)]; simp
    rw [hhead, ih]

theorem alarm1_image_length (am_pm_mode : Bool) (a : Alarm1) (mask : Nat)
    (t temp : List Nat) (h : alarm1_image am_pm_mode a mask t = some temp) :
    temp.length = 4 := by
  unfold alarm1_image at h
  split_ifs at h <;>
    first
      | exact Option.noConfusion h
      | (rw [Option.some_inj] at h; subst h; rfl)

theorem alarm2_image_length (am_pm_mode : Bool) (a : Alarm2) (mask : Nat)
    (t temp : List Nat) (h : alarm2_image am_pm_mode a mask t = some temp) :
    temp.length = 3 := by
  unfold alarm2_image at h
  split_ifs at h <;>
    first
      | exact Option.noConfusion h
      | (rw [Option.some_inj] at h; subst h; rfl)

theorem configure_time_image_length (am_pm_mode : Bool) (d : Ds3231Data) :
    (configure_time_image am_pm_mode d).length = 7 := rfl

/-- Packed-decimal roundtrip through the seconds/minutes decode masks. -/
theorem bcd_decode_70 : ∀ v < 60,
    10 * ((bin_to_bcd v &&& 0x70) >>> 4) + (bin_to_bcd v &&& 0x0F) = v := by decide

/-- 24-hour hour-byte roundtrip: bit 6 cleared, decoded through mask 0x30. -/
theorem bcd_decode_hours24 : ∀ v < 24,
    10 * (((bin_to_bcd v &&& 0xBF) &&& 0x30) >>> 4) + ((bin_to_bcd v &&& 0xBF) &&& 0x0F) = v := by
  decide

/-- 12-hour hour-byte roundtrip for in-range hours 1..12: decoded through
mask 0x10, and the meridiem bit (bit 5) of the byte is clear. -/
theorem bcd_decode_hours12 : ∀ v < 13, 1 ≤ v →
    10 * (((bin_to_bcd_am_pm v ||| (0x01 <<< 6)) &&& 0x10) >>> 4)
      + ((bin_to_bcd_am_pm v ||| (0x01 <<< 6)) &&& 0x0F) = v ∧
    ((bin_to_bcd_am_pm v ||| (0x01 <<< 6)) &&& 0x20) >>> 5 = 0 := by decide

/-- Day roundtrip through mask 0x07. -/
theorem bcd_decode_day : ∀ v < 8, bin_to_bcd v &&& 0x07 = v := by decide

/-- Date roundtrip through mask 0x30. -/
theorem bcd_decode_30 : ∀ v < 32,
    10 * ((bin_to_bcd v &&& 0x30) >>> 4) + (bin_to_bcd v &&& 0x0F) = v := by decide

/-- Month/century roundtrip: the month byte (with the century flag possibly
ORed into bit 7) decodes back to the month through mask 0x10 and to the
century bit through bit 7. -/
theorem bcd_decode_month_century : ∀ v < 13, ∀ c < 2,
    10 * (((if c ≠ 0 then bin_to_bcd v ||| (0x01 <<< 7) else bin_to_bcd v) &&& 0x10) >>> 4)
      + ((if c ≠ 0 then bin_to_bcd v ||| (0x01 <<< 7) else bin_to_bcd v) &&& 0x0F) = v ∧
    ((if c ≠ 0 then bin_to_bcd v ||| (0x01 <<< 7) else bin_to_bcd v) &&& (0x01 <<< 7)) >>> 7 = c := by
  decide

/-- Year roundtrip through mask 0xF0. -/
theorem bcd_decode_f0 : ∀ v < 100,
    10 * ((bin_to_bcd v &&& 0xF0) >>> 4) + (bin_to_bcd v &&& 0x0F) = v := by decide

/-- For an in-range record the clamping block is the identity. -/
theorem clampTime_eq_self (am_pm_mode : Bool) (d : Ds3231Data)
    (hs : d.seconds ≤ 59) (hm : d.minutes ≤ 59)
    (hh12 : am_pm_mode = true → 1 ≤ d.hours ∧ d.hours ≤ 12)
    (hh24 : am_pm_mode = false → d.hours ≤ 23)
    (hdy : 1 ≤ d.day ∧ d.day ≤ 7) (hdt : 1 ≤ d.date ∧ d.date ≤ 31)
    (hmo : 1 ≤ d.month ∧ d.month ≤ 12) (hy : d.year ≤ 99) :
    clampTime am_pm_mode d = d := by
  obtain ⟨s, m, h, ap, dy, dt, mo, c, y⟩ := d
  simp only at hs hm hh12 hh24 hdy hdt hmo hy
  unfold clampTime
  cases am_pm_mode with
  | false =>
    have hh := hh24 rfl
    simp only [Bool.false_eq_true, if_false, Ds3231Data.mk.injEq, and_true, true_and]
    refine ⟨?_, ?_, ?_, ?_, ?_, ?_, ?_⟩ <;> split_ifs <;> omega
  | true =>
    have hh := hh12 rfl
    simp only [if_true, Ds3231Data.mk.injEq, and_true, true_and]
    refine ⟨?_, ?_, ?_, ?_, ?_, ?_, ?_⟩ <;> split_ifs <;> omega

/-- Decoding the 7-byte image built from an in-range record recovers the
record, provided the meridiem flag is clear whenever 12-hour mode is on
(the encoder never sets the meridiem bit for clamped hours). -/
theorem read_time_fields_image (am_pm_mode : Bool) (d : Ds3231Data)
    (hs : d.seconds ≤ 59) (hm : d.minutes ≤ 59)
    (hh12 : am_pm_mode = true → 1 ≤ d.hours ∧ d.hours ≤ 12)
    (hh24 : am_pm_mode = false → d.hours ≤ 23)
    (hap : am_pm_mode = true → d.am_pm = false)
    (hdy : d.day ≤ 7) (hdt : d.date ≤ 31) (hmo : d.month ≤ 12)
    (hc : d.century ≤ 1) (hy : d.year ≤ 99) :
    read_time_fields am_pm_mode (configure_time_image am_pm_mode d) d = d := by
  obtain ⟨s, m, h, ap, dy, dt, mo, c, y⟩ := d
  simp only at hs hm hh12 hh24 hap hdy hdt hmo hc hy
  cases am_pm_mode with
  | false =>
    have hh := hh24 rfl
    simp only [read_time_fields, configure_time_image, hours_reg_byte,
      List.getD_cons_zero, List.getD_cons_succ, Bool.false_eq_true, if_false,
      Ds3231Data.mk.injEq, true_and, and_true]
    exact ⟨bcd_decode_70 s (by omega), bcd_decode_70 m (by omega),
      bcd_decode_hours24 h (by omega), bcd_decode_day dy (by omega),
      bcd_decode_30 dt (by omega),
      (bcd_decode_month_century mo (by omega) c (by omega)).1,
      (bcd_decode_month_century mo (by omega) c (by omega)).2,
      bcd_decode_f0 y (by omega)⟩
  | true =>
    obtain ⟨h1, h2⟩ := hh12 rfl
    have hap0 := hap rfl
    simp only at hap0
    subst hap0
    simp only [read_time_fields, configure_time_image, hours_reg_byte,
      List.getD_cons_zero, List.getD_cons_succ, if_true,
      Ds3231Data.mk.injEq]
    refine ⟨bcd_decode_70 s (by omega), bcd_decode_70 m (by omega),
      (bcd_decode_hours12 h (by omega) h1).1, ?_, bcd_decode_day dy (by omega),
      bcd_decode_30 dt (by omega),
      (bcd_decode_month_century mo (by omega) c (by omega)).1,
      (bcd_decode_month_century mo (by omega) c (by omega)).2,
      bcd_decode_f0 y (by omega)⟩
    rw [(bcd_decode_hours12 h (by omega) h1).2]
    simp

/-! ## Claim theorems -/

/-- Claim C1, counterexample: an in-range 12-hour reading with the meridiem
flag set (PM) does not survive the configure/read round trip — the encoder
ignores the input meridiem flag (hours are clamped to 1..12 first, so
`bin_to_bcd_am_pm` never sets bit 5), and the decoder reads the flag back
as clear. -/
theorem roundtrip_meridiem_counterexample :
    (ds3231_read_current_time true (⟨0, 0, 1, true, 1, 1, 1, 0, 0⟩ : Ds3231Data)
      ((ds3231_configure_time true (⟨0, 0, 1, true, 1, 1, 1, 0, 0⟩ : Ds3231Data) dev0 allOk).dev)
      allOk).st ≠ (⟨0, 0, 1, true, 1, 1, 1, 0, 0⟩ : Ds3231Data) := by decide

/-- Claim C1, amended: for every ClockReading whose fields are in range for
the given mode, reading back the 7-byte image written by
`ds3231_configure_time` returns the original record — in 24-hour mode
unconditionally, and in 12-hour mode provided the meridiem flag is false
(a PM record is decoded with the flag cleared, see the counterexample). -/
theorem configure_read_roundtrip (am_pm_mode : Bool) (d : Ds3231Data) (dev : Regs)
    (hs : d.seconds ≤ 59) (hm : d.minutes ≤ 59)
    (hh12 : am_pm_mode = true → 1 ≤ d.hours ∧ d.hours ≤ 12)
    (hh24 : am_pm_mode = false → d.hours ≤ 23)
    (hap : am_pm_mode = true → d.am_pm = false)
    (hdy : 1 ≤ d.day ∧ d.day ≤ 7) (hdt : 1 ≤ d.date ∧ d.date ≤ 31)
    (hmo : 1 ≤ d.month ∧ d.month ≤ 12) (hc : d.century ≤ 1) (hy : d.year ≤ 99) :
    (ds3231_read_current_time am_pm_mode d
      ((ds3231_configure_time am_pm_mode d dev allOk).dev) allOk).st = d := by
  have hclamp := clampTime_eq_self am_pm_mode d hs hm hh12 hh24 hdy hdt hmo hy
  have h1 : (ds3231_configure_time am_pm_mode d dev allOk).dev
      = writeBytes dev DS3231_SECONDS_REG
          (configure_time_image am_pm_mode (clampTime am_pm_mode d)) := rfl
  have h2 : ∀ dv : Regs, (ds3231_read_current_time am_pm_mode d dv allOk).st
      = read_time_fields am_pm_mode (readBytes dv DS3231_SECONDS_REG 7) d :=
    fun _ => rfl
  rw [h2, h1, hclamp]
  have h3 := readBytes_writeBytes (configure_time_image am_pm_mode d) dev DS3231_SECONDS_REG
  rw [configure_time_image_length] at h3
  rw [h3]
  exact read_time_fields_image am_pm_mode d hs hm hh12 hh24 hap
    (by omega) (by omega) (by omega) hc hy

/-- Witness for the amended round trip at a concrete in-range 12-hour
record with the meridiem flag false. -/
theorem configure_read_roundtrip_witness :
    (ds3231_read_current_time true (⟨59, 58, 12, false, 7, 31, 12, 1, 99⟩ : Ds3231Data)
      ((ds3231_configure_time true (⟨59, 58, 12, false, 7, 31, 12, 1, 99⟩ : Ds3231Data)
        dev0 allOk).dev) allOk).st = (⟨59, 58, 12, false, 7, 31, 12, 1, 99⟩ : Ds3231Data) :=
  configure_read_roundtrip true _ dev0 (by decide) (by decide) (by decide) (by decide)
    (by decide) (by decide) (by decide) (by decide) (by decide) (by decide)

/-- Claim C2: for input 14 the meridiem codec returns
`bin_to_bcd(14) | 0x20 = 0x34`, not `bin_to_bcd(2) | 0x20 = 0x22` as the
spec states — the source's `data -= 12` executes after `bin_to_bcd(data)`
has already been computed, so the subtraction is dead. -/
theorem bin_to_bcd_am_pm_at_14 :
    bin_to_bcd_am_pm 14 = 0x34 ∧ bin_to_bcd_am_pm 14 ≠ (bin_to_bcd 2 ||| (0x01 <<< 5)) := by
  decide

/-- Claim C3: with temperature MSB register 24 and LSB register 0x40
(top two bits 0b01), `ds3231_read_temperature` stores 25, not 24.25 — the
source computes the fraction as the integer division `1 / (temp[1] >> 6)`
instead of `(temp[1] >> 6) * 0.25`. -/
theorem read_temperature_quarter_bug :
    ds3231_read_temperature (fun a => if a = 0x12 then 0x40 else 24) 0 allOk = (0, 25) ∧
    (25 : ℚ) ≠ 24.25 := by
  constructor
  · simp only [ds3231_read_temperature, allOk, if_true]
    norm_num [Nat.shiftRight_eq_div_pow]
  · norm_num

/-- Claim C4, counterexample: passing the invalid mask 5 to
`ds3231_set_alarm_1` does return an error and leaves the registers
untouched, but only after a bus transaction (the initial alarm-register
read) has already been issued, so the error is not signaled before any
bus transaction. -/
theorem invalid_mode_counterexample :
    (ds3231_set_alarm_1 false (⟨0, 0, 0, false, 1, 1⟩ : Alarm1) 5 dev0 allOk).ret = -1 ∧
    (ds3231_set_alarm_1 false (⟨0, 0, 0, false, 1, 1⟩ : Alarm1) 5 dev0 allOk).trace ≠ [] := by
  decide

/-- Claim C4, amended: for every MatchMode value outside the defined set
passed to `ds3231_set_alarm_1` or `ds3231_set_alarm_2`, and every frequency
value outside the defined enum passed to
`ds3231_set_square_wave_frequency`, the operation returns an error before
any bus WRITE transaction, and the device registers are untouched for that
call; the initial register READ transaction, however, has already been
issued (or at least attempted) when the invalid value is detected. -/
theorem invalid_mode_no_write (am_pm_mode : Bool) (a1 : Alarm1) (a2 : Alarm2)
    (mask1 mask2 frq : Nat) (dev1 dev2 dev3 : Regs) (ok1 ok2 ok3 : Nat → Bool)
    (h1 : mask1 ≠ 0x0F ∧ mask1 ≠ 0x0E ∧ mask1 ≠ 0x0C ∧ mask1 ≠ 0x08 ∧
      mask1 ≠ 0x00 ∧ mask1 ≠ 0x10)
    (h2 : mask2 ≠ 0x07 ∧ mask2 ≠ 0x06 ∧ mask2 ≠ 0x05 ∧ mask2 ≠ 0x00 ∧ mask2 ≠ 0x01)
    (h3 : frq ≠ 0 ∧ frq ≠ 1 ∧ frq ≠ 2 ∧ frq ≠ 3) :
    ((ds3231_set_alarm_1 am_pm_mode a1 mask1 dev1 ok1).ret = -1 ∧
      (ds3231_set_alarm_1 am_pm_mode a1 mask1 dev1 ok1).dev = dev1 ∧
      (ds3231_set_alarm_1 am_pm_mode a1 mask1 dev1 ok1).trace
        = [.read DS3231_SECONDS_ALARM_1_REG 4]) ∧
    ((ds3231_set_alarm_2 am_pm_mode a2 mask2 dev2 ok2).ret = -1 ∧
      (ds3231_set_alarm_2 am_pm_mode a2 mask2 dev2 ok2).dev = dev2 ∧
      (ds3231_set_alarm_2 am_pm_mode a2 mask2 dev2 ok2).trace
        = [.read DS3231_MINUTES_ALARM_2_REG 3]) ∧
    ((ds3231_set_square_wave_frequency frq dev3 ok3).ret = -1 ∧
      (ds3231_set_square_wave_frequency frq dev3 ok3).dev = dev3 ∧
      (ds3231_set_square_wave_frequency frq dev3 ok3).trace
        = [.read DS3231_CONTROL_REG 1]) := by
  obtain ⟨m1a, m1b, m1c, m1d, m1e, m1f⟩ := h1
  obtain ⟨m2a, m2b, m2c, m2d, m2e⟩ := h2
  obtain ⟨f0, f1, f2, f3⟩ := h3
  have himg1 : ∀ t, alarm1_image am_pm_mode (clampAlarm1 am_pm_mode a1) mask1 t = none := by
    intro t
    unfold alarm1_image
    simp [m1a, m1b, m1c, m1d, m1e, m1f]
  have himg2 : ∀ t, alarm2_image am_pm_mode (clampAlarm2 am_pm_mode a2) mask2 t = none := by
    intro t
    unfold alarm2_image
    simp [m2a, m2b, m2c, m2d, m2e]
  refine ⟨⟨?_, ?_, ?_⟩, ⟨?_, ?_, ?_⟩, ⟨?_, ?_, ?_⟩⟩ <;>
    first
      | (unfold ds3231_set_alarm_1
         by_cases hk : ok1 0 = true <;> simp [hk, himg1])
      | (unfold ds3231_set_alarm_2
         by_cases hk : ok2 0 = true <;> simp [hk, himg2])
      | (unfold ds3231_set_square_wave_frequency
         by_cases hk : ok3 0 = true <;> simp [hk, f0, f1, f2, f3])

/-- Witness for the amended invalid-mode behaviour at concrete invalid
values (mask 5 for alarm 1, mask 4 for alarm 2, frequency code 9). -/
theorem invalid_mode_no_write_witness :
    ((ds3231_set_alarm_1 false (⟨0, 0, 0, false, 1, 1⟩ : Alarm1) 5 dev0 allOk).ret = -1 ∧
      (ds3231_set_alarm_1 false (⟨0, 0, 0, false, 1, 1⟩ : Alarm1) 5 dev0 allOk).dev = dev0 ∧
      (ds3231_set_alarm_1 false (⟨0, 0, 0, false, 1, 1⟩ : Alarm1) 5 dev0 allOk).trace
        = [.read DS3231_SECONDS_ALARM_1_REG 4]) ∧
    ((ds3231_set_alarm_2 false (⟨0, 0, false, 1, 1⟩ : Alarm2) 4 dev0 allOk).ret = -1 ∧
      (ds3231_set_alarm_2 false (⟨0, 0, false, 1, 1⟩ : Alarm2) 4 dev0 allOk).dev = dev0 ∧
      (ds3231_set_alarm_2 false (⟨0, 0, false, 1, 1⟩ : Alarm2) 4 dev0 allOk).trace
        = [.read DS3231_MINUTES_ALARM_2_REG 3]) ∧
    ((ds3231_set_square_wave_frequency 9 dev0 allOk).ret = -1 ∧
      (ds3231_set_square_wave_frequency 9 dev0 allOk).dev = dev0 ∧
      (ds3231_set_square_wave_frequency 9 dev0 allOk).trace
        = [.read DS3231_CONTROL_REG 1]) :=
  invalid_mode_no_write false _ _ 5 4 9 dev0 dev0 dev0 allOk allOk allOk
    (by decide) (by decide) (by decide)

/-- Claim C5: whenever `ds3231_set_alarm_1` returns success the control
register's bit 0 (A1IE) is set in the final device state, and whenever
`ds3231_set_alarm_2` returns success the control register's bit 1 (A2IE)
is set — the enable is a side effect of every successful call. -/
theorem set_alarm_enable_bit (am_pm_mode : Bool) (a1 : Alarm1) (a2 : Alarm2)
    (mask1 mask2 : Nat) (dev1 dev2 : Regs) (ok1 ok2 : Nat → Bool)
    (h1 : (ds3231_set_alarm_1 am_pm_mode a1 mask1 dev1 ok1).ret = 0)
    (h2 : (ds3231_set_alarm_2 am_pm_mode a2 mask2 dev2 ok2).ret = 0) :
    ((ds3231_set_alarm_1 am_pm_mode a1 mask1 dev1 ok1).dev DS3231_CONTROL_REG).testBit 0
        = true ∧
    ((ds3231_set_alarm_2 am_pm_mode a2 mask2 dev2 ok2).dev DS3231_CONTROL_REG).testBit 1
        = true := by
  constructor
  · unfold ds3231_set_alarm_1 at h1 ⊢
    by_cases hk0 : ok1 0 = true
    swap
    · simp [hk0] at h1
    simp only [hk0, if_true] at h1 ⊢
    rcases hI : alarm1_image am_pm_mode (clampAlarm1 am_pm_mode a1) mask1
        (readBytes dev1 DS3231_SECONDS_ALARM_1_REG 4) with _ | temp
    · rw [hI] at h1
      simp at h1
    rw [hI] at h1
    dsimp only at h1 ⊢
    by_cases hk1 : ok1 1 = true
    swap
    · simp [hk1] at h1
    by_cases hk2 : ok1 2 = true
    swap
    · simp [hk1, hk2] at h1
    by_cases hk3 : ok1 3 = true
    swap
    · simp [hk1, hk2, hk3] at h1
    simp only [hk1, hk2, hk3, if_true]
    have hlen := alarm1_image_length am_pm_mode (clampAlarm1 am_pm_mode a1) mask1 _ temp hI
    rw [writeBytes_ge temp _ DS3231_SECONDS_ALARM_1_REG DS3231_CONTROL_REG (by rw [hlen]; decide)]
    have hbit : Nat.testBit 1 0 = true := rfl
    simp [writeBytes, Nat.testBit_lor, hbit]
  · unfold ds3231_set_alarm_2 at h2 ⊢
    by_cases hk0 : ok2 0 = true
    swap
    · simp [hk0] at h2
    simp only [hk0, if_true] at h2 ⊢
    rcases hI : alarm2_image am_pm_mode (clampAlarm2 am_pm_mode a2) mask2
        (readBytes dev2 DS3231_MINUTES_ALARM_2_REG 3) with _ | temp
    · rw [hI] at h2
      simp at h2
    rw [hI] at h2
    dsimp only at h2 ⊢
    by_cases hk1 : ok2 1 = true
    swap
    · simp [hk1] at h2
    by_cases hk2 : ok2 2 = true
    swap
    · simp [hk1, hk2] at h2
    by_cases hk3 : ok2 3 = true
    swap
    · simp [hk1, hk2, hk3] at h2
    simp only [hk1, hk2, hk3, if_true]
    have hlen := alarm2_image_length am_pm_mode (clampAlarm2 am_pm_mode a2) mask2 _ temp hI
    rw [writeBytes_ge temp _ DS3231_MINUTES_ALARM_2_REG DS3231_CONTROL_REG (by rw [hlen])]
    have hbit : Nat.testBit 2 1 = true := rfl
    simp [writeBytes, Nat.testBit_lor, hbit]

/-- Witness for the alarm-enable side effect: both alarm setters succeed
on an all-zero device with the every-second / every-minute masks, and the
corresponding control-register bits end up set. -/
theorem set_alarm_enable_bit_witness :
    ((ds3231_set_alarm_1 false (⟨0, 0, 0, false, 1, 1⟩ : Alarm1) 0x0F dev0 allOk).dev
        DS3231_CONTROL_REG).testBit 0 = true ∧
    ((ds3231_set_alarm_2 false (⟨0, 0, false, 1, 1⟩ : Alarm2) 0x07 dev0 allOk).dev
        DS3231_CONTROL_REG).testBit 1 = true :=
  set_alarm_enable_bit false _ _ 0x0F 0x07 dev0 dev0 allOk allOk (by decide) (by decide)

/-- Claim C6: for every input record, both modes, any prior device state
and any bus outcome, if `ds3231_configure_time` succeeds then bit 6 of the
hour byte it leaves in the device mirrors the mode argument — set exactly
in 12-hour mode, independent of the hour register's previous contents. -/
theorem hour_byte_mode_bit (am_pm_mode : Bool) (d : Ds3231Data) (dev : Regs)
    (ok : Nat → Bool)
    (h : (ds3231_configure_time am_pm_mode d dev ok).ret = 0) :
    ((ds3231_configure_time am_pm_mode d dev ok).dev DS3231_HOURS_REG).testBit 6
      = am_pm_mode := by
  unfold ds3231_configure_time at h ⊢
  by_cases hk0 : ok 0 = true
  swap
  · simp [hk0] at h
  by_cases hk1 : ok 1 = true
  swap
  · simp [hk0, hk1] at h
  simp only [hk0, hk1, if_true]
  have hbit1 : Nat.testBit 64 6 = true := rfl
  have hbit2 : Nat.testBit 0xBF 6 = false := rfl
  cases am_pm_mode with
  | true =>
    simp [writeBytes, configure_time_image, hours_reg_byte, Nat.testBit_lor, hbit1]
  | false =>
    simp [writeBytes, configure_time_image, hours_reg_byte, Nat.testBit_land, hbit2]

/-- Witness for the hour-byte mode bit at a concrete 12-hour call. -/
theorem hour_byte_mode_bit_witness :
    ((ds3231_configure_time true (⟨0, 0, 5, false, 1, 1, 1, 0, 0⟩ : Ds3231Data)
        dev0 allOk).dev DS3231_HOURS_REG).testBit 6 = true :=
  hour_byte_mode_bit true _ dev0 allOk (by decide)

/-- Claim C7: under alarm 1's ON_MATCHING_SECOND_MINUTE_HOUR_AND_DATE mask
(0x00) the call succeeds with the seconds, minutes and hours alarm registers
written active (don't-care bit 7 clear), but the day/date register 0x0A is
left with its don't-care bit SET — the source's `temp[3] |= (0x01 << 7)` at
the end of the DATE (and DAY, mask 0x10) case defeats the date match, so
the active set tops out at {seconds, minutes, hours} instead of the
claimed {seconds, minutes, hours, date-or-day}.  Alarm 2's DATE case
(mask 0x00) clears bit 7 of its day/date register 0x0D as the claim
describes. -/
theorem alarm1_date_dont_care_bug :
    ((ds3231_set_alarm_1 false (⟨1, 2, 3, false, 4, 5⟩ : Alarm1) 0x00 dev0 allOk).ret = 0 ∧
      ((ds3231_set_alarm_1 false (⟨1, 2, 3, false, 4, 5⟩ : Alarm1) 0x00 dev0 allOk).dev
        0x07).testBit 7 = false ∧
      ((ds3231_set_alarm_1 false (⟨1, 2, 3, false, 4, 5⟩ : Alarm1) 0x00 dev0 allOk).dev
        0x08).testBit 7 = false ∧
      ((ds3231_set_alarm_1 false (⟨1, 2, 3, false, 4, 5⟩ : Alarm1) 0x00 dev0 allOk).dev
        0x09).testBit 7 = false ∧
      ((ds3231_set_alarm_1 false (⟨1, 2, 3, false, 4, 5⟩ : Alarm1) 0x00 dev0 allOk).dev
        0x0A).testBit 7 = true) ∧
    ((ds3231_set_alarm_1 false (⟨1, 2, 3, false, 4, 5⟩ : Alarm1) 0x10 dev0 allOk).dev
      0x0A).testBit 7 = true ∧
    ((ds3231_set_alarm_2 false (⟨2, 3, false, 4, 5⟩ : Alarm2) 0x00 dev0 allOk).dev
      0x0D).testBit 7 = false := by
  decide

/-- Claim C8: `ds3231_configure_time` never fails because of field values —
if both bus transactions succeed it returns 0 for EVERY input record, and
each field of the (in-place clamped) record is replaced by the nearest
bound of its legal range. -/
theorem configure_time_clamps_never_rejects (am_pm_mode : Bool) (d : Ds3231Data)
    (dev : Regs) (ok : Nat → Bool) (h0 : ok 0 = true) (h1 : ok 1 = true) :
    (ds3231_configure_time am_pm_mode d dev ok).ret = 0 ∧
    (ds3231_configure_time am_pm_mode d dev ok).st.seconds = min d.seconds 59 ∧
    (ds3231_configure_time am_pm_mode d dev ok).st.minutes = min d.minutes 59 ∧
    (ds3231_configure_time am_pm_mode d dev ok).st.hours =
      (if am_pm_mode then max 1 (min d.hours 12) else min d.hours 23) ∧
    (ds3231_configure_time am_pm_mode d dev ok).st.day = max 1 (min d.day 7) ∧
    (ds3231_configure_time am_pm_mode d dev ok).st.date = max 1 (min d.date 31) ∧
    (ds3231_configure_time am_pm_mode d dev ok).st.month = max 1 (min d.month 12) ∧
    (ds3231_configure_time am_pm_mode d dev ok).st.year = min d.year 99 := by
  unfold ds3231_configure_time
  simp only [h0, h1, eq_self_iff_true, if_true]
  refine ⟨trivial, ?_, ?_, ?_, ?_, ?_, ?_, ?_⟩ <;>
    dsimp only [clampTime] <;> split_ifs <;> omega

/-- Witness for clamping at a concrete record with every field out of
range (12-hour mode). -/
theorem configure_time_clamps_never_rejects_witness :
    (ds3231_configure_time true (⟨75, 99, 30, false, 9, 40, 20, 0, 150⟩ : Ds3231Data)
      dev0 allOk).ret = 0 ∧
    (ds3231_configure_time true (⟨75, 99, 30, false, 9, 40, 20, 0, 150⟩ : Ds3231Data)
      dev0 allOk).st.seconds = min 75 59 ∧
    (ds3231_configure_time true (⟨75, 99, 30, false, 9, 40, 20, 0, 150⟩ : Ds3231Data)
      dev0 allOk).st.minutes = min 99 59 ∧
    (ds3231_configure_time true (⟨75, 99, 30, false, 9, 40, 20, 0, 150⟩ : Ds3231Data)
      dev0 allOk).st.hours = (if true then max 1 (min 30 12) else min 30 23) ∧
    (ds3231_configure_time true (⟨75, 99, 30, false, 9, 40, 20, 0, 150⟩ : Ds3231Data)
      dev0 allOk).st.day = max 1 (min 9 7) ∧
    (ds3231_configure_time true (⟨75, 99, 30, false, 9, 40, 20, 0, 150⟩ : Ds3231Data)
      dev0 allOk).st.date = max 1 (min 40 31) ∧
    (ds3231_configure_time true (⟨75, 99, 30, false, 9, 40, 20, 0, 150⟩ : Ds3231Data)
      dev0 allOk).st.month = max 1 (min 20 12) ∧
    (ds3231_configure_time true (⟨75, 99, 30, false, 9, 40, 20, 0, 150⟩ : Ds3231Data)
      dev0 allOk).st.year = min 150 99 :=
  configure_time_clamps_never_rejects true _ dev0 allOk (by decide) (by decide)

/-- Claim C9: on success `at24c32_write_current_time` writes to the given
EEPROM page, starting at byte 0, exactly the 8-byte record
[seconds, minutes, hours, meridiem, day, date, month, year] in 12-hour
mode (century omitted) and
[seconds, minutes, hours, day, date, month, year, century] in 24-hour
mode (meridiem omitted), where the fields are those of the time decoded
from the device's timekeeping registers. -/
theorem eeprom_snapshot_layout (am_pm_mode : Bool) (init : Ds3231Data) (dev : Regs)
    (page_addr : Nat) (ok : Nat → Bool)
    (h : (at24c32_write_current_time am_pm_mode init dev page_addr ok).1 = 0) :
    (at24c32_write_current_time am_pm_mode init dev page_addr ok).2 =
      [⟨page_addr, 0,
        if am_pm_mode then
          [(read_time_fields am_pm_mode (readBytes dev DS3231_SECONDS_REG 7) init).seconds,
            (read_time_fields am_pm_mode (readBytes dev DS3231_SECONDS_REG 7) init).minutes,
            (read_time_fields am_pm_mode (readBytes dev DS3231_SECONDS_REG 7) init).hours,
            if (read_time_fields am_pm_mode (readBytes dev DS3231_SECONDS_REG 7) init).am_pm
              then 1 else 0,
            (read_time_fields am_pm_mode (readBytes dev DS3231_SECONDS_REG 7) init).day,
            (read_time_fields am_pm_mode (readBytes dev DS3231_SECONDS_REG 7) init).date,
            (read_time_fields am_pm_mode (readBytes dev DS3231_SECONDS_REG 7) init).month,
            (read_time_fields am_pm_mode (readBytes dev DS3231_SECONDS_REG 7) init).year]
        else
          [(read_time_fields am_pm_mode (readBytes dev DS3231_SECONDS_REG 7) init).seconds,
            (read_time_fields am_pm_mode (readBytes dev DS3231_SECONDS_REG 7) init).minutes,
            (read_time_fields am_pm_mode (readBytes dev DS3231_SECONDS_REG 7) init).hours,
            (read_time_fields am_pm_mode (readBytes dev DS3231_SECONDS_REG 7) init).day,
            (read_time_fields am_pm_mode (readBytes dev DS3231_SECONDS_REG 7) init).date,
            (read_time_fields am_pm_mode (readBytes dev DS3231_SECONDS_REG 7) init).month,
            (read_time_fields am_pm_mode (readBytes dev DS3231_SECONDS_REG 7) init).year,
            (read_time_fields am_pm_mode (readBytes dev DS3231_SECONDS_REG 7) init).century]⟩] := by
  unfold at24c32_write_current_time ds3231_read_current_time at h ⊢
  by_cases hk0 : ok 0 = true
  swap
  · simp [hk0] at h
  by_cases hk1 : ok 1 = true
  swap
  · simp [hk0, hk1] at h
  simp [hk0, hk1]

/-- Witness for the EEPROM snapshot layout at a concrete 24-hour call. -/
theorem eeprom_snapshot_layout_witness :
    (at24c32_write_current_time false (⟨0, 0, 0, false, 1, 1, 1, 0, 0⟩ : Ds3231Data)
      dev0 3 allOk).2 =
      [⟨3, 0,
        [(read_time_fields false (readBytes dev0 DS3231_SECONDS_REG 7)
            (⟨0, 0, 0, false, 1, 1, 1, 0, 0⟩ : Ds3231Data)).seconds,
          (read_time_fields false (readBytes dev0 DS3231_SECONDS_REG 7)
            (⟨0, 0, 0, false, 1, 1, 1, 0, 0⟩ : Ds3231Data)).minutes,
          (read_time_fields false (readBytes dev0 DS3231_SECONDS_REG 7)
            (⟨0, 0, 0, false, 1, 1, 1, 0, 0⟩ : Ds3231Data)).hours,
          (read_time_fields false (readBytes dev0 DS3231_SECONDS_REG 7)
            (⟨0, 0, 0, false, 1, 1, 1, 0, 0⟩ : Ds3231Data)).day,
          (read_time_fields false (readBytes dev0 DS3231_SECONDS_REG 7)
            (⟨0, 0, 0, false, 1, 1, 1, 0, 0⟩ : Ds3231Data)).date,
          (read_time_fields false (readBytes dev0 DS3231_SECONDS_REG 7)
            (⟨0, 0, 0, false, 1, 1, 1, 0, 0⟩ : Ds3231Data)).month,
          (read_time_fields false (readBytes dev0 DS3231_SECONDS_REG 7)
            (⟨0, 0, 0, false, 1, 1, 1, 0, 0⟩ : Ds3231Data)).year,
          (read_time_fields false (readBytes dev0 DS3231_SECONDS_REG 7)
            (⟨0, 0, 0, false, 1, 1, 1, 0, 0⟩ : Ds3231Data)).century]⟩] := by
  have := eeprom_snapshot_layout false (⟨0, 0, 0, false, 1, 1, 1, 0, 0⟩ : Ds3231Data)
    dev0 3 allOk (by decide)
  simpa using this

/-- Once the initial register read succeeds, the record handed back by
`ds3231_configure_time` is the clamped input, whatever happens later. -/
theorem configure_time_st (am_pm_mode : Bool) (d : Ds3231Data) (dev : Regs)
    (ok : Nat → Bool) (h : ok 0 = true) :
    (ds3231_configure_time am_pm_mode d dev ok).st = clampTime am_pm_mode d := by
  unfold ds3231_configure_time
  simp only [h, eq_self_iff_true, if_true]
  split <;> rfl

/-- Once the initial register read succeeds, the alarm record handed back
by `ds3231_set_alarm_1` is the clamped input, for every mask (valid or
not) and every later bus outcome. -/
theorem set_alarm_1_st (am_pm_mode : Bool) (a : Alarm1) (mask : Nat) (dev : Regs)
    (ok : Nat → Bool) (h : ok 0 = true) :
    (ds3231_set_alarm_1 am_pm_mode a mask dev ok).st = clampAlarm1 am_pm_mode a := by
  unfold ds3231_set_alarm_1
  simp only [h, eq_self_iff_true, if_true]
  rcases alarm1_image am_pm_mode (clampAlarm1 am_pm_mode a) mask
      (readBytes dev DS3231_SECONDS_ALARM_1_REG 4) with _ | temp
  · rfl
  · dsimp only
    split
    · split
      · split <;> rfl
      · rfl
    · rfl

/-- As `set_alarm_1_st`, for `ds3231_set_alarm_2`. -/
theorem set_alarm_2_st (am_pm_mode : Bool) (a : Alarm2) (mask : Nat) (dev : Regs)
    (ok : Nat → Bool) (h : ok 0 = true) :
    (ds3231_set_alarm_2 am_pm_mode a mask dev ok).st = clampAlarm2 am_pm_mode a := by
  unfold ds3231_set_alarm_2
  simp only [h, eq_self_iff_true, if_true]
  rcases alarm2_image am_pm_mode (clampAlarm2 am_pm_mode a) mask
      (readBytes dev DS3231_MINUTES_ALARM_2_REG 3) with _ | temp
  · rfl
  · dsimp only
    split
    · split
      · split <;> rfl
      · rfl
    · rfl

/-- Claim C10: every call to `ds3231_configure_time`, `ds3231_set_alarm_1`
or `ds3231_set_alarm_2` whose initial register read succeeds (so the
clamping step is reached) leaves every clamped field of the caller's
struct within its legal range — even if a later bus write fails, and for
the alarm setters even if the mask is invalid — and modifies no other
field (the meridiem flag, and for the time record the century, are
untouched). -/
theorem clamp_in_place_mutation (am_pm_mode : Bool) (d : Ds3231Data)
    (a1 : Alarm1) (a2 : Alarm2) (mask1 mask2 : Nat) (dev : Regs)
    (ok : Nat → Bool) (h0 : ok 0 = true) :
    ((ds3231_configure_time am_pm_mode d dev ok).st.seconds ≤ 59 ∧
      (ds3231_configure_time am_pm_mode d dev ok).st.minutes ≤ 59 ∧
      (am_pm_mode = true → 1 ≤ (ds3231_configure_time am_pm_mode d dev ok).st.hours ∧
        (ds3231_configure_time am_pm_mode d dev ok).st.hours ≤ 12) ∧
      (am_pm_mode = false → (ds3231_configure_time am_pm_mode d dev ok).st.hours ≤ 23) ∧
      1 ≤ (ds3231_configure_time am_pm_mode d dev ok).st.day ∧
      (ds3231_configure_time am_pm_mode d dev ok).st.day ≤ 7 ∧
      1 ≤ (ds3231_configure_time am_pm_mode d dev ok).st.date ∧
      (ds3231_configure_time am_pm_mode d dev ok).st.date ≤ 31 ∧
      1 ≤ (ds3231_configure_time am_pm_mode d dev ok).st.month ∧
      (ds3231_configure_time am_pm_mode d dev ok).st.month ≤ 12 ∧
      (ds3231_configure_time am_pm_mode d dev ok).st.year ≤ 99 ∧
      (ds3231_configure_time am_pm_mode d dev ok).st.am_pm = d.am_pm ∧
      (ds3231_configure_time am_pm_mode d dev ok).st.century = d.century) ∧
    ((ds3231_set_alarm_1 am_pm_mode a1 mask1 dev ok).st.seconds ≤ 59 ∧
      (ds3231_set_alarm_1 am_pm_mode a1 mask1 dev ok).st.minutes ≤ 59 ∧
      (am_pm_mode = true → 1 ≤ (ds3231_set_alarm_1 am_pm_mode a1 mask1 dev ok).st.hours ∧
        (ds3231_set_alarm_1 am_pm_mode a1 mask1 dev ok).st.hours ≤ 12) ∧
      (am_pm_mode = false → (ds3231_set_alarm_1 am_pm_mode a1 mask1 dev ok).st.hours ≤ 23) ∧
      1 ≤ (ds3231_set_alarm_1 am_pm_mode a1 mask1 dev ok).st.day ∧
      (ds3231_set_alarm_1 am_pm_mode a1 mask1 dev ok).st.day ≤ 7 ∧
      1 ≤ (ds3231_set_alarm_1 am_pm_mode a1 mask1 dev ok).st.date ∧
      (ds3231_set_alarm_1 am_pm_mode a1 mask1 dev ok).st.date ≤ 31 ∧
      (ds3231_set_alarm_1 am_pm_mode a1 mask1 dev ok).st.am_pm = a1.am_pm) ∧
    ((ds3231_set_alarm_2 am_pm_mode a2 mask2 dev ok).st.minutes ≤ 59 ∧
      (am_pm_mode = true → 1 ≤ (ds3231_set_alarm_2 am_pm_mode a2 mask2 dev ok).st.hours ∧
        (ds3231_set_alarm_2 am_pm_mode a2 mask2 dev ok).st.hours ≤ 12) ∧
      (am_pm_mode = false → (ds3231_set_alarm_2 am_pm_mode a2 mask2 dev ok).st.hours ≤ 23) ∧
      1 ≤ (ds3231_set_alarm_2 am_pm_mode a2 mask2 dev ok).st.day ∧
      (ds3231_set_alarm_2 am_pm_mode a2 mask2 dev ok).st.day ≤ 7 ∧
      1 ≤ (ds3231_set_alarm_2 am_pm_mode a2 mask2 dev ok).st.date ∧
      (ds3231_set_alarm_2 am_pm_mode a2 mask2 dev ok).st.date ≤ 31 ∧
      (ds3231_set_alarm_2 am_pm_mode a2 mask2 dev ok).st.am_pm = a2.am_pm) := by
  rw [configure_time_st am_pm_mode d dev ok h0,
    set_alarm_1_st am_pm_mode a1 mask1 dev ok h0,
    set_alarm_2_st am_pm_mode a2 mask2 dev ok h0]
  refine ⟨⟨?_, ?_, ?_, ?_, ?_, ?_, ?_, ?_, ?_, ?_, ?_, ?_, ?_⟩,
      ⟨?_, ?_, ?_, ?_, ?_, ?_, ?_, ?_, ?_⟩, ⟨?_, ?_, ?_, ?_, ?_, ?_, ?_, ?_⟩⟩ <;>
    (try intro hm) <;>
    dsimp only [clampTime, clampAlarm1, clampAlarm2] <;>
    (first | rfl | (split_ifs <;> simp_all <;> omega))

/-- Witness for the in-place clamping at concrete out-of-range records,
with the oracle failing the final write transaction of each call. -/
theorem clamp_in_place_mutation_witness :
    ((ds3231_configure_time true (⟨75, 99, 30, true, 9, 40, 20, 2, 150⟩ : Ds3231Data)
        dev0 (fun n => n = 0)).st.seconds ≤ 59 ∧
      (ds3231_configure_time true (⟨75, 99, 30, true, 9, 40, 20, 2, 150⟩ : Ds3231Data)
        dev0 (fun n => n = 0)).st.minutes ≤ 59 ∧
      (true = true → 1 ≤ (ds3231_configure_time true
          (⟨75, 99, 30, true, 9, 40, 20, 2, 150⟩ : Ds3231Data) dev0 (fun n => n = 0)).st.hours ∧
        (ds3231_configure_time true (⟨75, 99, 30, true, 9, 40, 20, 2, 150⟩ : Ds3231Data)
          dev0 (fun n => n = 0)).st.hours ≤ 12) ∧
      (true = false → (ds3231_configure_time true
          (⟨75, 99, 30, true, 9, 40, 20, 2, 150⟩ : Ds3231Data) dev0
          (fun n => n = 0)).st.hours ≤ 23) ∧
      1 ≤ (ds3231_configure_time true (⟨75, 99, 30, true, 9, 40, 20, 2, 150⟩ : Ds3231Data)
        dev0 (fun n => n = 0)).st.day ∧
      (ds3231_configure_time true (⟨75, 99, 30, true, 9, 40, 20, 2, 150⟩ : Ds3231Data)
        dev0 (fun n => n = 0)).st.day ≤ 7 ∧
      1 ≤ (ds3231_configure_time true (⟨75, 99, 30, true, 9, 40, 20, 2, 150⟩ : Ds3231Data)
        dev0 (fun n => n = 0)).st.date ∧
      (ds3231_configure_time true (⟨75, 99, 30, true, 9, 40, 20, 2, 150⟩ : Ds3231Data)
        dev0 (fun n => n = 0)).st.date ≤ 31 ∧
      1 ≤ (ds3231_configure_time true (⟨75, 99, 30, true, 9, 40, 20, 2, 150⟩ : Ds3231Data)
        dev0 (fun n => n = 0)).st.month ∧
      (ds3231_configure_time true (⟨75, 99, 30, true, 9, 40, 20, 2, 150⟩ : Ds3231Data)
        dev0 (fun n => n = 0)).st.month ≤ 12 ∧
      (ds3231_configure_time true (⟨75, 99, 30, true, 9, 40, 20, 2, 150⟩ : Ds3231Data)
        dev0 (fun n => n = 0)).st.year ≤ 99 ∧
      (ds3231_configure_time true (⟨75, 99, 30, true, 9, 40, 20, 2, 150⟩ : Ds3231Data)
        dev0 (fun n => n = 0)).st.am_pm = true ∧
      (ds3231_configure_time true (⟨75, 99, 30, true, 9, 40, 20, 2, 150⟩ : Ds3231Data)
        dev0 (fun n => n = 0)).st.century = 2) ∧
    ((ds3231_set_alarm_1 true (⟨75, 99, 30, true, 9, 40⟩ : Alarm1) 0x0F dev0
        (fun n => n = 0)).st.seconds ≤ 59 ∧
      (ds3231_set_alarm_1 true (⟨75, 99, 30, true, 9, 40⟩ : Alarm1) 0x0F dev0
        (fun n => n = 0)).st.minutes ≤ 59 ∧
      (true = true → 1 ≤ (ds3231_set_alarm_1 true (⟨75, 99, 30, true, 9, 40⟩ : Alarm1)
          0x0F dev0 (fun n => n = 0)).st.hours ∧
        (ds3231_set_alarm_1 true (⟨75, 99, 30, true, 9, 40⟩ : Alarm1) 0x0F dev0
          (fun n => n = 0)).st.hours ≤ 12) ∧
      (true = false → (ds3231_set_alarm_1 true (⟨75, 99, 30, true, 9, 40⟩ : Alarm1)
          0x0F dev0 (fun n => n = 0)).st.hours ≤ 23) ∧
      1 ≤ (ds3231_set_alarm_1 true (⟨75, 99, 30, true, 9, 40⟩ : Alarm1) 0x0F dev0
        (fun n => n = 0)).st.day ∧
      (ds3231_set_alarm_1 true (⟨75, 99, 30, true, 9, 40⟩ : Alarm1) 0x0F dev0
        (fun n => n = 0)).st.day ≤ 7 ∧
      1 ≤ (ds3231_set_alarm_1 true (⟨75, 99, 30, true, 9, 40⟩ : Alarm1) 0x0F dev0
        (fun n => n = 0)).st.date ∧
      (ds3231_set_alarm_1 true (⟨75, 99, 30, true, 9, 40⟩ : Alarm1) 0x0F dev0
        (fun n => n = 0)).st.date ≤ 31 ∧
      (ds3231_set_alarm_1 true (⟨75, 99, 30, true, 9, 40⟩ : Alarm1) 0x0F dev0
        (fun n => n = 0)).st.am_pm = true) ∧
    ((ds3231_set_alarm_2 true (⟨99, 30, true, 9, 40⟩ : Alarm2) 0x07 dev0
        (fun n => n = 0)).st.minutes ≤ 59 ∧
      (true = true → 1 ≤ (ds3231_set_alarm_2 true (⟨99, 30, true, 9, 40⟩ : Alarm2)
          0x07 dev0 (fun n => n = 0)).st.hours ∧
        (ds3231_set_alarm_2 true (⟨99, 30, true, 9, 40⟩ : Alarm2) 0x07 dev0
          (fun n => n = 0)).st.hours ≤ 12) ∧
      (true = false → (ds3231_set_alarm_2 true (⟨99, 30, true, 9, 40⟩ : Alarm2)
          0x07 dev0 (fun n => n = 0)).st.hours ≤ 23) ∧
      1 ≤ (ds3231_set_alarm_2 true (⟨99, 30, true, 9, 40⟩ : Alarm2) 0x07 dev0
        (fun n => n = 0)).st.day ∧
      (ds3231_set_alarm_2 true (⟨99, 30, true, 9, 40⟩ : Alarm2) 0x07 dev0
        (fun n => n = 0)).st.day ≤ 7 ∧
      1 ≤ (ds3231_set_alarm_2 true (⟨99, 30, true, 9, 40⟩ : Alarm2) 0x07 dev0
        (fun n => n = 0)).st.date ∧
      (ds3231_set_alarm_2 true (⟨99, 30, true, 9, 40⟩ : Alarm2) 0x07 dev0
        (fun n => n = 0)).st.date ≤ 31 ∧
      (ds3231_set_alarm_2 true (⟨99, 30, true, 9, 40⟩ : Alarm2) 0x07 dev0
        (fun n => n = 0)).st.am_pm = true) :=
  clamp_in_place_mutation true (⟨75, 99, 30, true, 9, 40, 20, 2, 150⟩ : Ds3231Data)
    (⟨75, 99, 30, true, 9, 40⟩ : Alarm1) (⟨99, 30, true, 9, 40⟩ : Alarm2)
    0x0F 0x07 dev0 (fun n => n = 0) (by decide)

end DS3231
